import Mathlib

/-!
Shallow embedding of the Camera node of node.gl (`src/node_camera.c`) and
proofs about its lifecycle functions `camera_init`, `camera_update`,
`camera_draw` and `camera_uninit`.

Scalars of the C code (`float`, `double`) are embedded as `ℚ`; machine
integers (`int`, `GLuint`) as `ℤ` / `ℕ`.  Matrices are flat column-major
arrays (`ℕ → ℚ`, indices 0..15) like the C `float[4*4]`.  External
collaborators that
the camera calls through function pointers or the math library — the
animation sampler, the child node's update, libm's `sqrt`/trigonometry, the
OpenGL function table — are modelled as explicit environment structures
threaded through the embedded functions, and the OpenGL name spaces
(textures, framebuffers, renderbuffers) as a small `GLState` record with
standard OpenGL semantics.
-/

namespace NodeCamera

/-- A C `float[3]` seen through its pointer: a flat array of rationals
(reads beyond the stored entries never happen in the embedded code). -/
abbrev Vec3 := ℕ → ℚ

/-- A C `float[4]` seen through its pointer. -/
abbrev Vec4 := ℕ → ℚ

/-- Column-major flat 4x4 matrix, indexed 0..15 like the C `float[4*4]`. -/
abbrev Mat4 := ℕ → ℚ

/-- Array literal with three entries. -/
def vec3 (a b c : ℚ) : Vec3 := fun i =>
  if i = 0 then a else if i = 1 then b else if i = 2 then c else 0

/-- Array literal with four entries. -/
def vec4 (a b c d : ℚ) : Vec4 := fun i =>
  if i = 0 then a else if i = 1 then b else if i = 2 then c else
  if i = 3 then d else 0

/-- Array literal with sixteen entries (column-major 4x4 matrix). -/
def mat4x4 (m0 m1 m2 m3 m4 m5 m6 m7 m8 m9 m10 m11 m12 m13 m14 m15 : ℚ) :
    Mat4 := fun i =>
  if i = 0 then m0 else if i = 1 then m1 else if i = 2 then m2 else
  if i = 3 then m3 else if i = 4 then m4 else if i = 5 then m5 else
  if i = 6 then m6 else if i = 7 then m7 else if i = 8 then m8 else
  if i = 9 then m9 else if i = 10 then m10 else if i = 11 then m11 else
  if i = 12 then m12 else if i = 13 then m13 else if i = 14 then m14 else
  if i = 15 then m15 else 0

/-- Modelled from the spec: the scalar math-library functions used by the
matrix utilities (`math_utils.c` is not part of the provided sources, and
libm is external).  `sqrt` backs vector normalization in the look-at
construction; `cothalf` is the cotangent of half the field of view used by
the perspective matrix.  Both are transcendental on ℚ, so they are supplied
by the environment, exactly like the animation sampler. -/
structure MathLib where
  sqrt : ℚ → ℚ
  cothalf : ℚ → ℚ

/-- Modelled from the spec: componentwise vector subtraction (math utils). -/
def ngli_vec3_sub (a b : Vec3) : Vec3 :=
  vec3 (a 0 - b 0) (a 1 - b 1) (a 2 - b 2)

/-- Modelled from the spec: dot product (math utils). -/
def ngli_vec3_dot (a b : Vec3) : ℚ :=
  a 0 * b 0 + a 1 * b 1 + a 2 * b 2

/-- Modelled from the spec: cross product (math utils). -/
def ngli_vec3_cross (a b : Vec3) : Vec3 :=
  vec3 (a 1 * b 2 - a 2 * b 1)
       (a 2 * b 0 - a 0 * b 2)
       (a 0 * b 1 - a 1 * b 0)

/-- Modelled from the spec: vector normalization, `v * (1 / sqrt (v·v))`
(math utils); on a zero vector it degrades silently, as documented. -/
def ngli_vec3_norm (ml : MathLib) (v : Vec3) : Vec3 :=
  let l := 1 / ml.sqrt (ngli_vec3_dot v v)
  vec3 (v 0 * l) (v 1 * l) (v 2 * l)

/-- Modelled from the spec: `lookAt(eye, center, up) -> mat4`, the standard
right-handed (gluLookAt-style) view matrix, written column-major:
the horizontal basis vector `s` occupies flat indices 0/4/8/12, the
vertical basis vector `t` indices 1/5/9/13, the negated view direction
indices 2/6/10/14 (`ngli_mat4_look_at` lives in `math_utils.c`, which is
not under the provided sources). -/
def ngli_mat4_look_at (ml : MathLib) (eye center up : Vec3) : Mat4 :=
  let f := ngli_vec3_norm ml (ngli_vec3_sub center eye)
  let s := ngli_vec3_norm ml (ngli_vec3_cross f up)
  let t := ngli_vec3_cross s f
  mat4x4 (s 0) (t 0) (-(f 0)) 0
         (s 1) (t 1) (-(f 1)) 0
         (s 2) (t 2) (-(f 2)) 0
         (-(ngli_vec3_dot s eye)) (-(ngli_vec3_dot t eye)) (ngli_vec3_dot f eye) 1

/-- Modelled from the spec: standard symmetric perspective projection
matrix from `fov`, `aspect`, `near`, `far` (`ngli_mat4_perspective` lives
in `math_utils.c`, not under the provided sources); degenerate parameters
yield a degenerate matrix without any runtime check. -/
def ngli_mat4_perspective (ml : MathLib) (fov aspect near far : ℚ) : Mat4 :=
  let c := ml.cothalf fov
  let z := far - near
  mat4x4 (c / aspect) 0 0 0
         0 c 0 0
         0 0 (-(far + near) / z) (-1)
         0 0 (-(2 * far * near) / z) 0

/-- Modelled from the spec: standard column-major matrix-vector product
(`ngli_mat4_mul_vec4` lives in `math_utils.c`, not under the provided
sources). -/
def ngli_mat4_mul_vec4 (m : Mat4) (v : Vec4) : Vec4 :=
  vec4 (m 0 * v 0 + m 4 * v 1 + m 8 * v 2 + m 12 * v 3)
       (m 1 * v 0 + m 5 * v 1 + m 9 * v 2 + m 13 * v 3)
       (m 2 * v 0 + m 6 * v 1 + m 10 * v 2 + m 14 * v 3)
       (m 3 * v 0 + m 7 * v 1 + m 11 * v 2 + m 15 * v 3)

/-- A transform node, viewed through the only interface the camera uses:
after `ngli_node_update(node, t)`, `ngli_get_last_transformation_matrix`
returns either its last computed matrix or NULL ("no matrix yet"). -/
structure TransformNode where
  matrixAt : ℚ → Option Mat4

/-- The `struct camera` private data plus the fields of it the camera
code touches (`pipe_buf` holds `some size` when the CPU pixel buffer is
allocated; `texture_id` / `framebuffer_id` are the GL names created by
`camera_init`). -/
structure Camera where
  eye : Vec3
  center : Vec3
  up : Vec3
  perspective : Vec4
  eye_transform : Option TransformNode
  center_transform : Option TransformNode
  up_transform : Option TransformNode
  fov_animkf : List (ℚ × ℚ)
  current_fov_kf : ℕ
  pipe_fd : ℤ
  pipe_width : ℤ
  pipe_height : ℤ
  pipe_buf : Option ℤ
  texture_id : ℕ
  framebuffer_id : ℕ

/-- The child node, viewed through the camera's contract: two mutable
matrix fields the camera overwrites each frame, plus whatever private
state the child keeps. -/
structure ChildNode where
  modelview_matrix : Mat4
  projection_matrix : Mat4
  state : ℕ

/-- The `APPLY_TRANSFORM` macro of `camera_update`: the local `float[4]`
starts as `{0,0,0,1}`, `memcpy` copies the three static components over
the first three entries (leaving w = 1), and if a transform node is
attached and has produced a matrix, that matrix is applied to the
homogeneous point. -/
def apply_transform (tr : Option TransformNode) (v : Vec3) (t : ℚ) : Vec4 :=
  let w : Vec4 := vec4 (v 0) (v 1) (v 2) 1
  match tr with
  | none => w
  | some tn =>
      match tn.matrixAt t with
      | none => w
      | some m => ngli_mat4_mul_vec4 m w

/-- First three components of a `float[4]`, as read by `ngli_mat4_look_at`
through a `float *`. -/
def vec4_xyz (v : Vec4) : Vec3 :=
  vec3 (v 0) (v 1) (v 2)

def camera_eye_vec (s : Camera) (t : ℚ) : Vec4 :=
  apply_transform s.eye_transform s.eye t

def camera_center_vec (s : Camera) (t : ℚ) : Vec4 :=
  apply_transform s.center_transform s.center t

def camera_up_vec (s : Camera) (t : ℚ) : Vec4 :=
  apply_transform s.up_transform s.up t

/-- The view matrix as produced by the `ngli_mat4_look_at` call of
`camera_update`, before the capture flip. -/
def camera_view_raw (ml : MathLib) (s : Camera) (t : ℚ) : Mat4 :=
  ngli_mat4_look_at ml
    (vec4_xyz (camera_eye_vec s t))
    (vec4_xyz (camera_center_vec s t))
    (vec4_xyz (camera_up_vec s t))

/-- The view matrix after the capture correction of `camera_update`:
`if (s->pipe_fd) view[5] = -view[5];`. -/
def camera_view (ml : MathLib) (s : Camera) (t : ℚ) : Mat4 :=
  let view := camera_view_raw ml s t
  if s.pipe_fd ≠ 0 then Function.update view 5 (-(view 5)) else view

/-- Environment of `camera_update`: the math library, the external
keyframe sampler `ngli_animkf_interpolate` (given the keyframe list, the
cursor and the time, it returns the interpolated scalar and the new
cursor), and the child's polymorphic update. -/
structure UpdateEnv where
  ml : MathLib
  sampler : List (ℚ × ℚ) → ℕ → ℚ → ℚ × ℕ
  childUpdate : ChildNode → ℚ → ChildNode

/-- The perspective parameter vector and fov cursor after the
`if (s->nb_fov_animkf)` block of `camera_update`: when keyframes are
present the sampler output overwrites `s->perspective[0]` and the cursor;
otherwise both are untouched. -/
def camera_proj_params (env : UpdateEnv) (s : Camera) (t : ℚ) : Vec4 × ℕ :=
  if s.fov_animkf.length ≠ 0 then
    let r := env.sampler s.fov_animkf s.current_fov_kf t
    (Function.update s.perspective 0 r.1, r.2)
  else (s.perspective, s.current_fov_kf)

/-- The projection matrix computed by `camera_update` from the (possibly
overwritten) stored perspective parameters. -/
def camera_proj (env : UpdateEnv) (s : Camera) (t : ℚ) : Mat4 :=
  ngli_mat4_perspective env.ml
    ((camera_proj_params env s t).1 0)
    ((camera_proj_params env s t).1 1)
    ((camera_proj_params env s t).1 2)
    ((camera_proj_params env s t).1 3)

/-- `camera_update(node, t)`: compute the (possibly flipped) view matrix,
sample the fov animation if keyframes are present, compute the projection
matrix, write both matrices into the child's fields, then recurse into the
child's update.  Returns the new camera state and the new child state. -/
def camera_update (env : UpdateEnv) (s : Camera) (child : ChildNode) (t : ℚ) :
    Camera × ChildNode :=
  let view := camera_view env.ml s t
  let pp := camera_proj_params env s t
  let s' := { s with perspective := pp.1, current_fov_kf := pp.2 }
  let persp := ngli_mat4_perspective env.ml (pp.1 0) (pp.1 1) (pp.1 2) (pp.1 3)
  let child' := { child with modelview_matrix := view, projection_matrix := persp }
  (s', env.childUpdate child' t)

/-- The GL object state the camera code touches, with standard OpenGL
semantics: three separate name spaces (textures, framebuffers,
renderbuffers — deleting a name in one name space never affects another),
the current bindings, the color attachment of each framebuffer (0 = none),
and a fresh-name counter for `glGen*`. -/
structure GLState where
  nextId : ℕ
  textures : List ℕ
  framebuffers : List ℕ
  renderbuffers : List ℕ
  framebufferBinding : ℕ
  textureBinding : ℕ
  colorAttachment : ℕ → ℕ

/-- The sub-initializations `camera_init` can perform, in source order. -/
inductive SubInit
  | child
  | eyeT
  | centerT
  | upT
deriving DecidableEq, Repr

/-- Environment of `camera_init`: the return codes of the polymorphic
`ngli_node_init` calls on the child and the three optional transform
nodes, and whether the `calloc` of the CPU pixel buffer succeeds. -/
structure InitEnv where
  childInit : ℤ
  eyeTInit : ℤ
  centerTInit : ℤ
  upTInit : ℤ
  allocOk : Bool

/-- Result of `camera_init`: the C return value, the new camera and GL
states, and the list of sub-initializations actually performed. -/
structure InitResult where
  ret : ℤ
  cam : Camera
  gl : GLState
  performed : List SubInit

/-- The capture-setup block of `camera_init` (lines 87-104): generate and
configure the capture texture, save the currently bound framebuffer,
generate the capture framebuffer, attach the texture to it (framebuffer
completeness is a fatal assertion, always satisfied here), and restore the
saved framebuffer binding.  Each `let` mirrors one GL call that changes
modelled state; `TexParameteri`/`TexImage2D` only configure the bound
texture object and have no modelled effect. -/
def capture_setup (s : Camera) (gl : GLState) : Camera × GLState :=
  let texture_id := gl.nextId
  let gl1 : GLState := { gl with nextId := gl.nextId + 1,
                                 textures := texture_id :: gl.textures }
  let gl2 : GLState := { gl1 with textureBinding := texture_id }
  let gl3 : GLState := { gl2 with textureBinding := 0 }
  let saved_framebuffer := gl3.framebufferBinding
  let framebuffer_id := gl3.nextId
  let gl4 : GLState := { gl3 with nextId := gl3.nextId + 1,
                                  framebuffers := framebuffer_id :: gl3.framebuffers }
  let gl5 : GLState := { gl4 with framebufferBinding := framebuffer_id }
  let gl6 : GLState := { gl5 with colorAttachment :=
                           Function.update gl5.colorAttachment gl5.framebufferBinding texture_id }
  let gl7 : GLState := { gl6 with framebufferBinding := saved_framebuffer }
  ({ s with texture_id := texture_id, framebuffer_id := framebuffer_id }, gl7)

/-- The `if (s->pipe_fd)` tail of `camera_init`: allocate the CPU pixel
buffer (`calloc(4, pipe_width * pipe_height)`, returning -1 on failure)
and run the GL capture setup. -/
def camera_init_capture (env : InitEnv) (s : Camera) (gl : GLState)
    (done : List SubInit) : InitResult :=
  if s.pipe_fd ≠ 0 then
    if env.allocOk then
      let s1 := { s with pipe_buf := some (4 * (s.pipe_width * s.pipe_height)) }
      let r := capture_setup s1 gl
      ⟨0, r.1, r.2, done⟩
    else ⟨-1, s, gl, done⟩
  else ⟨0, s, gl, done⟩

/-- The `up_transform` step of `camera_init`. -/
def camera_init_up (env : InitEnv) (s : Camera) (gl : GLState)
    (done : List SubInit) : InitResult :=
  match s.up_transform with
  | none => camera_init_capture env s gl done
  | some _ =>
      if env.upTInit < 0 then ⟨env.upTInit, s, gl, done ++ [SubInit.upT]⟩
      else camera_init_capture env s gl (done ++ [SubInit.upT])

/-- The `center_transform` step of `camera_init`. -/
def camera_init_center (env : InitEnv) (s : Camera) (gl : GLState)
    (done : List SubInit) : InitResult :=
  match s.center_transform with
  | none => camera_init_up env s gl done
  | some _ =>
      if env.centerTInit < 0 then ⟨env.centerTInit, s, gl, done ++ [SubInit.centerT]⟩
      else camera_init_up env s gl (done ++ [SubInit.centerT])

/-- The `eye_transform` step of `camera_init`. -/
def camera_init_eye (env : InitEnv) (s : Camera) (gl : GLState)
    (done : List SubInit) : InitResult :=
  match s.eye_transform with
  | none => camera_init_center env s gl done
  | some _ =>
      if env.eyeTInit < 0 then ⟨env.eyeTInit, s, gl, done ++ [SubInit.eyeT]⟩
      else camera_init_center env s gl (done ++ [SubInit.eyeT])

/-- `camera_init(node)`: initialize the child, then each present transform
node, propagating the first negative return code immediately; then run the
capture setup when `pipe_fd` is non-zero. -/
def camera_init (env : InitEnv) (s : Camera) (gl : GLState) : InitResult :=
  if env.childInit < 0 then ⟨env.childInit, s, gl, [SubInit.child]⟩
  else camera_init_eye env s gl [SubInit.child]

/-- The GL calls `camera_uninit` issues, in order. -/
inductive GLCall
  | bindFramebuffer (n : ℕ)
  | framebufferTexture2D (tex : ℕ)
  | deleteRenderbuffers (n : ℕ)
  | deleteTextures (n : ℕ)
deriving DecidableEq, Repr

/-- Result of `camera_uninit`: the new camera and GL states, the number of
`free` calls issued on the pixel buffer, and the GL call sequence. -/
structure UninitResult where
  cam : Camera
  gl : GLState
  frees : ℕ
  calls : List GLCall

/-- `camera_uninit(node)`: free the CPU pixel buffer when `pipe_fd` is
non-zero; then — unconditionally — bind the stored framebuffer name,
detach its color attachment, and issue `DeleteRenderbuffers` on the
framebuffer name and `DeleteTextures` on the texture name.  Note the
source really calls `DeleteRenderbuffers` (not `DeleteFramebuffers`) on
`framebuffer_id`. -/
def camera_uninit (s : Camera) (gl : GLState) : UninitResult :=
  let freed := if s.pipe_fd ≠ 0 then (({ s with pipe_buf := none } : Camera), 1) else (s, 0)
  let gl1 : GLState := { gl with framebufferBinding := s.framebuffer_id }
  let gl2 : GLState := { gl1 with colorAttachment :=
                           Function.update gl1.colorAttachment gl1.framebufferBinding 0 }
  let gl3 : GLState := { gl2 with renderbuffers := gl2.renderbuffers.erase s.framebuffer_id }
  let gl4 : GLState := { gl3 with textures := gl3.textures.erase s.texture_id }
  ⟨freed.1, gl4, freed.2,
   [GLCall.bindFramebuffer s.framebuffer_id, GLCall.framebufferTexture2D 0,
    GLCall.deleteRenderbuffers s.framebuffer_id, GLCall.deleteTextures s.texture_id]⟩

/-- The externally observable events of `camera_draw`, in order. -/
inductive DrawEvent
  | drawChild
  | bindReadFramebuffer (n : ℕ)
  | bindDrawFramebuffer (n : ℕ)
  | blitFramebuffer (w h : ℤ)
  | readPixels (w h : ℤ)
  | writeFd (fd : ℤ) (len : ℤ)
deriving DecidableEq, Repr

/-- `camera_draw(node)`: draw the child; when `pipe_fd` is non-zero, if the
context reports multisampling, save the read/draw framebuffer bindings and
blit-resolve into the capture framebuffer, then read the pixels back and
`write` `pipe_width * pipe_height * 4` bytes to `pipe_fd`, finally restore
the saved bindings.  `multisampling`, `readFbBinding` and `drawFbBinding`
are what the `glGetIntegerv` queries report; `writeResult` is the return
value of the `write(2)` call, which the code discards. -/
def camera_draw (s : Camera) (multisampling : Bool)
    (readFbBinding drawFbBinding : ℕ) (writeResult : ℤ) : List DrawEvent :=
  [DrawEvent.drawChild] ++
  (if s.pipe_fd ≠ 0 then
     (if multisampling then
        [DrawEvent.bindReadFramebuffer drawFbBinding,
         DrawEvent.bindDrawFramebuffer s.framebuffer_id,
         DrawEvent.blitFramebuffer s.pipe_width s.pipe_height,
         DrawEvent.bindReadFramebuffer s.framebuffer_id]
      else []) ++
     [DrawEvent.readPixels s.pipe_width s.pipe_height,
      DrawEvent.writeFd s.pipe_fd (s.pipe_width * s.pipe_height * 4)] ++
     (if multisampling then
        [DrawEvent.bindReadFramebuffer readFbBinding,
         DrawEvent.bindDrawFramebuffer drawFbBinding]
      else [])
   else [])

/-- The `write(2)` calls of a draw-event trace: (fd, requested length). -/
def writesOf : List DrawEvent → List (ℤ × ℤ)
  | [] => []
  | DrawEvent.writeFd fd len :: r => (fd, len) :: writesOf r
  | DrawEvent.drawChild :: r => writesOf r
  | DrawEvent.bindReadFramebuffer _ :: r => writesOf r
  | DrawEvent.bindDrawFramebuffer _ :: r => writesOf r
  | DrawEvent.blitFramebuffer _ _ :: r => writesOf r
  | DrawEvent.readPixels _ _ :: r => writesOf r

/-- A pure-translation transform matrix (column-major: the translation
components sit at flat indices 12/13/14). -/
def translation_matrix (d : Vec3) : Mat4 :=
  mat4x4 1 0 0 0
         0 1 0 0
         0 0 1 0
         (d 0) (d 1) (d 2) 1

/-- The eye transform is absent or initialized without error. -/
def eye_ok (env : InitEnv) (s : Camera) : Prop :=
  s.eye_transform = none ∨ 0 ≤ env.eyeTInit

/-- The center transform is absent or initialized without error. -/
def center_ok (env : InitEnv) (s : Camera) : Prop :=
  s.center_transform = none ∨ 0 ≤ env.centerTInit

/-- The up transform is absent or initialized without error. -/
def up_ok (env : InitEnv) (s : Camera) : Prop :=
  s.up_transform = none ∨ 0 ≤ env.upTInit

/-- The sub-initialization step contributed by the eye transform. -/
def eye_done (s : Camera) : List SubInit :=
  if s.eye_transform.isSome then [SubInit.eyeT] else []

/-- The sub-initialization step contributed by the center transform. -/
def center_done (s : Camera) : List SubInit :=
  if s.center_transform.isSome then [SubInit.centerT] else []

/-- The sub-initialization step contributed by the up transform. -/
def up_done (s : Camera) : List SubInit :=
  if s.up_transform.isSome then [SubInit.upT] else []

/-- A math library agreeing with the real square root on every value this
development evaluates it at (1 and 25). -/
def mlFix : MathLib :=
  ⟨fun q => if q = 1 then 1 else if q = 25 then 5 else 0, fun _ => 1⟩

/-- A camera with the parameter-table defaults (`eye (0,0,1)`,
`up (0,1,0)`, everything else zero / absent). -/
def cam0 : Camera :=
  { eye := vec3 0 0 1, center := vec3 0 0 0, up := vec3 0 1 0,
    perspective := vec4 0 0 0 0,
    eye_transform := none, center_transform := none, up_transform := none,
    fov_animkf := [], current_fov_kf := 0,
    pipe_fd := 0, pipe_width := 0, pipe_height := 0,
    pipe_buf := none, texture_id := 0, framebuffer_id := 0 }

/-- A fresh GL state. -/
def gl0 : GLState := ⟨1, [], [], [], 0, 0, fun _ => 0⟩

/-- An init environment where every sub-initialization succeeds. -/
def envOk : InitEnv := ⟨0, 0, 0, 0, true⟩

/-- A child node with zero matrices. -/
def child0 : ChildNode := ⟨fun _ => 0, fun _ => 0, 0⟩

/-- A capturing camera whose up vector is tilted so that the vertical
basis row of the view matrix has a non-zero x component (3/5). -/
def sC1 : Camera :=
  { cam0 with eye := vec3 0 0 0, center := vec3 0 0 (-1), up := vec3 3 4 0,
              pipe_fd := 1 }

/-- The same camera with capture disabled, all other inputs equal. -/
def sC1off : Camera := { sC1 with pipe_fd := 0 }

/-- A capturing camera with a zero pipe width. -/
def sC3 : Camera := { cam0 with pipe_fd := 1, pipe_width := 0, pipe_height := 4 }

/-- A capturing 2x2 camera. -/
def sC2 : Camera := { cam0 with pipe_fd := 1, pipe_width := 2, pipe_height := 2 }

/-- An init environment whose child initialization fails with -2. -/
def envC4 : InitEnv := ⟨-2, 0, 0, 0, true⟩

/-- A camera with fov keyframes and static perspective (45, 1, 1, 10). -/
def sC5 : Camera :=
  { cam0 with perspective := vec4 45 1 1 10, fov_animkf := [(0, 30), (1, 60)] }

/-- An update environment with a concrete sampler and child update. -/
def envC5 : UpdateEnv := ⟨mlFix, fun _ c t => (t + 40, c + 1), fun c _ => c⟩

/-- A capturing 4x4 camera writing to file descriptor 3. -/
def sC7 : Camera := { cam0 with pipe_fd := 3, pipe_width := 4, pipe_height := 4 }

/-- A GL state whose framebuffer binding is 7 on entry. -/
def glC8 : GLState := { gl0 with framebufferBinding := 7 }

/-- A transform node that always reports the translation by (1,2,3). -/
def tnC9 : TransformNode := ⟨fun _ => some (translation_matrix (vec3 1 2 3))⟩

/-- A camera with the translation transform attached to eye, center and
up alike. -/
def sC9 : Camera :=
  { cam0 with eye_transform := some tnC9, center_transform := some tnC9,
              up_transform := some tnC9 }

lemma camera_view_sC1_entry1 : camera_view mlFix sC1 0 1 = 3/5 := by
  norm_num [camera_view, camera_view_raw, camera_eye_vec, camera_center_vec,
    camera_up_vec, apply_transform, vec4_xyz, ngli_mat4_look_at, ngli_vec3_norm,
    ngli_vec3_cross, ngli_vec3_sub, ngli_vec3_dot, mat4x4, vec3, vec4, mlFix,
    sC1, cam0, Function.update_noteq, Function.update_same]

lemma camera_view_sC1off_entry1 : camera_view mlFix sC1off 0 1 = 3/5 := by
  norm_num [camera_view, camera_view_raw, camera_eye_vec, camera_center_vec,
    camera_up_vec, apply_transform, vec4_xyz, ngli_mat4_look_at, ngli_vec3_norm,
    ngli_vec3_cross, ngli_vec3_sub, ngli_vec3_dot, mat4x4, vec3, vec4, mlFix,
    sC1off, sC1, cam0, Function.update_noteq, Function.update_same]

/-- Claim C1 counterexample: at the tilted-up capturing camera `sC1`, the first
entry of the vertical basis row (flat index 1) is NOT negated between the
capture-enabled and capture-disabled runs, so the entire vertical basis
row is not the negation of its capture-disabled counterpart. -/
theorem camera_flip_row_counterexample :
    ¬ (∀ i ∈ [1, 5, 9, 13],
         camera_view mlFix sC1 0 i = -(camera_view mlFix sC1off 0 i)) := by
  intro h
  have h1 := h 1 (by norm_num)
  rw [camera_view_sC1_entry1, camera_view_sC1off_entry1] at h1
  norm_num at h1

/-- Claim C1 amended: with capture enabled, only the single entry at flat index
5 of the view matrix is negated relative to the same computation with
capture disabled; every other entry, including the remaining entries of
the vertical basis row, is identical. -/
theorem camera_flip_single_entry (ml : MathLib) (s : Camera) (t : ℚ)
    (h : s.pipe_fd ≠ 0) :
    camera_view ml s t 5 = -(camera_view ml { s with pipe_fd := 0 } t 5) ∧
    ∀ i : ℕ, i ≠ 5 →
      camera_view ml s t i = camera_view ml { s with pipe_fd := 0 } t i := by
  have hoff : camera_view ml { s with pipe_fd := 0 } t = camera_view_raw ml s t := rfl
  have hon : camera_view ml s t =
      Function.update (camera_view_raw ml s t) 5 (-(camera_view_raw ml s t 5)) := by
    show (if s.pipe_fd ≠ 0 then
            Function.update (camera_view_raw ml s t) 5 (-(camera_view_raw ml s t 5))
          else camera_view_raw ml s t) = _
    rw [if_pos h]
  constructor
  · rw [hon, hoff, Function.update_same]
  · intro i hi
    rw [hon, hoff, Function.update_noteq hi]

/-- Claim C1 witness: the hypotheses of `camera_flip_single_entry` hold at the
concrete capturing camera `sC1`, where entry 5 is indeed negated. -/
theorem camera_flip_single_entry_witness :
    sC1.pipe_fd ≠ 0 ∧
    camera_view mlFix sC1 0 5 = -(camera_view mlFix sC1off 0 5) :=
  ⟨by norm_num [sC1, cam0], (camera_flip_single_entry mlFix sC1 0 (by norm_num [sC1, cam0])).1⟩


lemma apply_transform_translation (d v : Vec3) (t : ℚ) (tn : TransformNode)
    (hm : tn.matrixAt t = some (translation_matrix d)) :
    apply_transform (some tn) v t = vec4 (v 0 + d 0) (v 1 + d 1) (v 2 + d 2) 1 := by
  simp only [apply_transform, hm]
  funext i
  simp only [ngli_mat4_mul_vec4, translation_matrix, mat4x4, vec4]
  norm_num

/-- Claim C9: in `camera_update` each of eye, center and up is extended to
a homogeneous point with w-component 1 before its optional transform is
applied, so a transform whose matrix is a pure translation by `d`
translates the up vector exactly as it translates eye and center. -/
theorem apply_transform_translates_up_like_eye (s : Camera) (t : ℚ) (d : Vec3)
    (tn : TransformNode) (hm : tn.matrixAt t = some (translation_matrix d)) :
    (s.up_transform = some tn →
       camera_up_vec s t = vec4 (s.up 0 + d 0) (s.up 1 + d 1) (s.up 2 + d 2) 1) ∧
    (s.eye_transform = some tn →
       camera_eye_vec s t = vec4 (s.eye 0 + d 0) (s.eye 1 + d 1) (s.eye 2 + d 2) 1) ∧
    (s.center_transform = some tn →
       camera_center_vec s t =
         vec4 (s.center 0 + d 0) (s.center 1 + d 1) (s.center 2 + d 2) 1) := by
  refine ⟨fun h => ?_, fun h => ?_, fun h => ?_⟩
  · rw [camera_up_vec, h, apply_transform_translation d s.up t tn hm]
  · rw [camera_eye_vec, h, apply_transform_translation d s.eye t tn hm]
  · rw [camera_center_vec, h, apply_transform_translation d s.center t tn hm]

/-- Claim C9 witness: at the concrete camera `sC9`, whose three transforms
all report the translation by (1,2,3), the up vector is translated exactly
like the eye vector. -/
theorem apply_transform_translates_up_like_eye_witness :
    sC9.up_transform = some tnC9 ∧
    camera_up_vec sC9 0 =
      vec4 (sC9.up 0 + vec3 1 2 3 0) (sC9.up 1 + vec3 1 2 3 1)
           (sC9.up 2 + vec3 1 2 3 2) 1 :=
  ⟨rfl, (apply_transform_translates_up_like_eye sC9 0 (vec3 1 2 3) tnC9 rfl).1 rfl⟩

/-- Claim C6: at the moment `camera_update` invokes the child update for
time `t`, the child passed to it carries exactly the view matrix and the
projection matrix just computed; both field writes happen before the
recursive update, which is the last action. -/
theorem camera_update_writes_before_child_update (env : UpdateEnv) (s : Camera)
    (child : ChildNode) (t : ℚ) :
    (camera_update env s child t).2 =
      env.childUpdate
        { child with modelview_matrix := camera_view env.ml s t,
                     projection_matrix := camera_proj env s t } t := rfl

/-- Claim C5: when fov keyframes are present, `camera_update` samples the
animation at `t`, the result overwrites the stored fov (perspective
component 0) and the cursor, and the projection matrix is computed from
the sampled fov (with the stored aspect/near/far); with no keyframes the
stored perspective is untouched and the projection uses the static fov. -/
theorem camera_update_fov_animation (env : UpdateEnv) (s : Camera)
    (child : ChildNode) (t : ℚ) :
    (s.fov_animkf ≠ [] →
       (camera_update env s child t).1.perspective 0 =
         (env.sampler s.fov_animkf s.current_fov_kf t).1 ∧
       (camera_update env s child t).1.current_fov_kf =
         (env.sampler s.fov_animkf s.current_fov_kf t).2 ∧
       camera_proj env s t =
         ngli_mat4_perspective env.ml (env.sampler s.fov_animkf s.current_fov_kf t).1
           (s.perspective 1) (s.perspective 2) (s.perspective 3)) ∧
    (s.fov_animkf = [] →
       (camera_update env s child t).1.perspective = s.perspective ∧
       (camera_update env s child t).1.current_fov_kf = s.current_fov_kf ∧
       camera_proj env s t =
         ngli_mat4_perspective env.ml (s.perspective 0) (s.perspective 1)
           (s.perspective 2) (s.perspective 3)) := by
  constructor
  · intro h
    have hlen : s.fov_animkf.length ≠ 0 := by
      simpa [List.length_eq_zero] using h
    refine ⟨?_, ?_, ?_⟩ <;>
      simp [camera_update, camera_proj, camera_proj_params, hlen,
            Function.update_same, Function.update_noteq]
  · intro h
    refine ⟨?_, ?_, ?_⟩ <;>
      simp [camera_update, camera_proj, camera_proj_params, h]

/-- Claim C5 witness: at the concrete camera `sC5` (keyframes present)
with the concrete sampler of `envC5`, the sampled value overwrites the
stored fov. -/
theorem camera_update_fov_animation_witness :
    sC5.fov_animkf ≠ [] ∧
    (camera_update envC5 sC5 child0 0).1.perspective 0 =
      (envC5.sampler sC5.fov_animkf sC5.current_fov_kf 0).1 :=
  ⟨List.cons_ne_nil _ _,
   ((camera_update_fov_animation envC5 sC5 child0 0).1 (List.cons_ne_nil _ _)).1⟩

lemma camera_init_eye_ok (env : InitEnv) (s : Camera) (gl : GLState)
    (done : List SubInit) (he : eye_ok env s) :
    camera_init_eye env s gl done =
      camera_init_center env s gl (done ++ eye_done s) := by
  unfold camera_init_eye eye_done
  cases hcase : s.eye_transform with
  | none => simp
  | some tn =>
      have hge : 0 ≤ env.eyeTInit := he.resolve_left (by simp [hcase])
      simp [not_lt.mpr hge]

lemma camera_init_center_ok (env : InitEnv) (s : Camera) (gl : GLState)
    (done : List SubInit) (hce : center_ok env s) :
    camera_init_center env s gl done =
      camera_init_up env s gl (done ++ center_done s) := by
  unfold camera_init_center center_done
  cases hcase : s.center_transform with
  | none => simp
  | some tn =>
      have hge : 0 ≤ env.centerTInit := hce.resolve_left (by simp [hcase])
      simp [not_lt.mpr hge]

lemma camera_init_up_ok (env : InitEnv) (s : Camera) (gl : GLState)
    (done : List SubInit) (hu : up_ok env s) :
    camera_init_up env s gl done =
      camera_init_capture env s gl (done ++ up_done s) := by
  unfold camera_init_up up_done
  cases hcase : s.up_transform with
  | none => simp
  | some tn =>
      have hge : 0 ≤ env.upTInit := hu.resolve_left (by simp [hcase])
      simp [not_lt.mpr hge]

lemma camera_init_chain (env : InitEnv) (s : Camera) (gl : GLState)
    (hc : 0 ≤ env.childInit) (he : eye_ok env s) (hce : center_ok env s)
    (hu : up_ok env s) :
    camera_init env s gl =
      camera_init_capture env s gl
        ([SubInit.child] ++ eye_done s ++ center_done s ++ up_done s) := by
  unfold camera_init
  rw [if_neg (not_lt.mpr hc), camera_init_eye_ok env s gl _ he,
      camera_init_center_ok env s gl _ hce, camera_init_up_ok env s gl _ hu]

/-- Claim C4: `camera_init` propagates the first negative
sub-initialization return code immediately — returning that same code,
performing no subsequent sub-initialization and allocating no capture
resource (camera and GL states unchanged) — and returns the generic
failure -1 when the CPU pixel buffer allocation fails. -/
theorem camera_init_error_propagation (env : InitEnv) (s : Camera) (gl : GLState) :
    (env.childInit < 0 →
       camera_init env s gl = ⟨env.childInit, s, gl, [SubInit.child]⟩) ∧
    (0 ≤ env.childInit → ∀ tn, s.eye_transform = some tn → env.eyeTInit < 0 →
       camera_init env s gl =
         ⟨env.eyeTInit, s, gl, [SubInit.child, SubInit.eyeT]⟩) ∧
    (0 ≤ env.childInit → eye_ok env s → ∀ tn, s.center_transform = some tn →
       env.centerTInit < 0 →
       camera_init env s gl =
         ⟨env.centerTInit, s, gl,
          [SubInit.child] ++ eye_done s ++ [SubInit.centerT]⟩) ∧
    (0 ≤ env.childInit → eye_ok env s → center_ok env s → ∀ tn,
       s.up_transform = some tn → env.upTInit < 0 →
       camera_init env s gl =
         ⟨env.upTInit, s, gl,
          [SubInit.child] ++ eye_done s ++ center_done s ++ [SubInit.upT]⟩) ∧
    (0 ≤ env.childInit → eye_ok env s → center_ok env s → up_ok env s →
       s.pipe_fd ≠ 0 → env.allocOk = false →
       camera_init env s gl =
         ⟨-1, s, gl,
          [SubInit.child] ++ eye_done s ++ center_done s ++ up_done s⟩) := by
  refine ⟨fun h => ?_, fun hc tn he hneg => ?_, fun hc he tn hce hneg => ?_,
          fun hc he hce tn hu hneg => ?_, fun hc he hce hu hp ha => ?_⟩
  · unfold camera_init
    rw [if_pos h]
  · unfold camera_init camera_init_eye
    rw [if_neg (not_lt.mpr hc)]
    simp [he, hneg]
  · rw [camera_init]
    rw [if_neg (not_lt.mpr hc), camera_init_eye_ok env s gl _ he]
    unfold camera_init_center
    simp [hce, hneg]
  · rw [camera_init]
    rw [if_neg (not_lt.mpr hc), camera_init_eye_ok env s gl _ he,
        camera_init_center_ok env s gl _ hce]
    unfold camera_init_up
    simp [hu, hneg]
  · rw [camera_init_chain env s gl hc he hce hu]
    unfold camera_init_capture
    rw [if_pos hp, ha]
    simp

/-- Claim C4 witness: with a child whose initialization fails with -2,
`camera_init` returns -2, performs only the child sub-initialization and
leaves camera and GL states untouched. -/
theorem camera_init_error_propagation_witness :
    envC4.childInit < 0 ∧
    camera_init envC4 cam0 gl0 = ⟨envC4.childInit, cam0, gl0, [SubInit.child]⟩ :=
  ⟨by norm_num [envC4],
   (camera_init_error_propagation envC4 cam0 gl0).1 (by norm_num [envC4])⟩

/-- Claim C3 counterexample: with `pipe_fd = 1` but `pipe_width = 0`,
`camera_init` still allocates the CPU pixel buffer (and the GL objects):
allocation is not equivalent to "pipe_fd non-zero AND width/height
positive". -/
theorem camera_init_capture_cond_counterexample :
    ¬ ((camera_init envOk sC3 gl0).cam.pipe_buf.isSome = true ↔
       (sC3.pipe_fd ≠ 0 ∧ 0 < sC3.pipe_width ∧ 0 < sC3.pipe_height)) := by
  intro hiff
  have h1 : (camera_init envOk sC3 gl0).cam.pipe_buf.isSome = true := by
    norm_num [camera_init, camera_init_eye, camera_init_center, camera_init_up,
      camera_init_capture, capture_setup, envOk, sC3, cam0, gl0]
  have h2 := hiff.mp h1
  norm_num [sC3, cam0] at h2

/-- Claim C3 amended: provided every sub-initialization succeeds and the
allocation succeeds, `camera_init` allocates the CPU pixel buffer and
creates the GL texture and framebuffer if and only if `pipe_fd` is
non-zero; `pipe_width`/`pipe_height` are never checked, and with
`pipe_fd = 0` nothing is allocated (camera and GL states unchanged). -/
theorem camera_init_capture_iff_pipe_fd (env : InitEnv) (s : Camera) (gl : GLState)
    (hc : 0 ≤ env.childInit) (he : eye_ok env s) (hce : center_ok env s)
    (hu : up_ok env s) (ha : env.allocOk = true) :
    (s.pipe_fd ≠ 0 →
       (camera_init env s gl).ret = 0 ∧
       (camera_init env s gl).cam.pipe_buf =
         some (4 * (s.pipe_width * s.pipe_height)) ∧
       (camera_init env s gl).cam.texture_id = gl.nextId ∧
       (camera_init env s gl).cam.framebuffer_id = gl.nextId + 1 ∧
       (camera_init env s gl).gl.textures = gl.nextId :: gl.textures ∧
       (camera_init env s gl).gl.framebuffers = (gl.nextId + 1) :: gl.framebuffers) ∧
    (s.pipe_fd = 0 →
       (camera_init env s gl).ret = 0 ∧
       (camera_init env s gl).cam = s ∧
       (camera_init env s gl).gl = gl) := by
  constructor
  · intro hp
    rw [camera_init_chain env s gl hc he hce hu]
    unfold camera_init_capture
    rw [if_pos hp, ha]
    simp [capture_setup]
  · intro hp
    rw [camera_init_chain env s gl hc he hce hu]
    unfold camera_init_capture
    simp [hp]

/-- Claim C3 witness: at the concrete capturing 2x2 camera, the buffer is
allocated with size 4*2*2 = 16. -/
theorem camera_init_capture_iff_pipe_fd_witness :
    sC2.pipe_fd ≠ 0 ∧
    (camera_init envOk sC2 gl0).cam.pipe_buf =
      some (4 * (sC2.pipe_width * sC2.pipe_height)) :=
  ⟨by norm_num [sC2, cam0],
   ((camera_init_capture_iff_pipe_fd envOk sC2 gl0 (le_refl 0) (Or.inl rfl)
       (Or.inl rfl) (Or.inl rfl) rfl).1 (by norm_num [sC2, cam0])).2.1⟩

lemma capture_setup_binding (s : Camera) (gl : GLState) :
    (capture_setup s gl).2.framebufferBinding = gl.framebufferBinding := rfl

lemma camera_init_capture_binding (env : InitEnv) (s : Camera) (gl : GLState)
    (done : List SubInit) :
    (camera_init_capture env s gl done).gl.framebufferBinding =
      gl.framebufferBinding := by
  unfold camera_init_capture
  split_ifs <;> rfl

lemma camera_init_up_binding (env : InitEnv) (s : Camera) (gl : GLState)
    (done : List SubInit) :
    (camera_init_up env s gl done).gl.framebufferBinding =
      gl.framebufferBinding := by
  unfold camera_init_up
  cases s.up_transform with
  | none => exact camera_init_capture_binding env s gl done
  | some tn =>
      split_ifs
      · rfl
      · exact camera_init_capture_binding env s gl _

lemma camera_init_center_binding (env : InitEnv) (s : Camera) (gl : GLState)
    (done : List SubInit) :
    (camera_init_center env s gl done).gl.framebufferBinding =
      gl.framebufferBinding := by
  unfold camera_init_center
  cases s.center_transform with
  | none => exact camera_init_up_binding env s gl done
  | some tn =>
      split_ifs
      · rfl
      · exact camera_init_up_binding env s gl _

lemma camera_init_eye_binding (env : InitEnv) (s : Camera) (gl : GLState)
    (done : List SubInit) :
    (camera_init_eye env s gl done).gl.framebufferBinding =
      gl.framebufferBinding := by
  unfold camera_init_eye
  cases s.eye_transform with
  | none => exact camera_init_center_binding env s gl done
  | some tn =>
      split_ifs
      · rfl
      · exact camera_init_center_binding env s gl _

/-- Claim C8: when capture is configured and `camera_init` returns
successfully, the GL framebuffer binding on exit equals the binding that
was in effect on entry: the bound framebuffer is saved before the capture
framebuffer setup and restored afterward. -/
theorem camera_init_restores_framebuffer_binding (env : InitEnv) (s : Camera)
    (gl : GLState) (h1 : s.pipe_fd ≠ 0) (h2 : (camera_init env s gl).ret = 0) :
    (camera_init env s gl).gl.framebufferBinding = gl.framebufferBinding := by
  unfold camera_init
  split_ifs
  · rfl
  · exact camera_init_eye_binding env s gl _

/-- Claim C8 witness: at the concrete capturing camera with entry binding
7, `camera_init` returns 0 and the binding is 7 again afterward. -/
theorem camera_init_restores_framebuffer_binding_witness :
    sC2.pipe_fd ≠ 0 ∧ (camera_init envOk sC2 glC8).ret = 0 ∧
    (camera_init envOk sC2 glC8).gl.framebufferBinding = glC8.framebufferBinding :=
  ⟨by norm_num [sC2, cam0],
   by norm_num [camera_init, camera_init_eye, camera_init_center, camera_init_up,
     camera_init_capture, capture_setup, envOk, sC2, cam0, glC8, gl0],
   camera_init_restores_framebuffer_binding envOk sC2 glC8
     (by norm_num [sC2, cam0])
     (by norm_num [camera_init, camera_init_eye, camera_init_center, camera_init_up,
       camera_init_capture, capture_setup, envOk, sC2, cam0, glC8, gl0])⟩

/-- Claim C2 (code bug): at a concrete capturing camera, `camera_init`
creates a GL framebuffer, `camera_uninit` frees the pixel buffer exactly
once and deletes the texture, but — because the source calls
`DeleteRenderbuffers` instead of `DeleteFramebuffers` on `framebuffer_id`
— the framebuffer created by init is STILL allocated after uninit. -/
theorem camera_uninit_framebuffer_leak :
    (camera_init envOk sC2 gl0).cam.framebuffer_id ∈
      (camera_init envOk sC2 gl0).gl.framebuffers ∧
    (camera_uninit (camera_init envOk sC2 gl0).cam
        (camera_init envOk sC2 gl0).gl).frees = 1 ∧
    (camera_uninit (camera_init envOk sC2 gl0).cam
        (camera_init envOk sC2 gl0).gl).gl.textures = [] ∧
    (camera_init envOk sC2 gl0).cam.framebuffer_id ∈
      (camera_uninit (camera_init envOk sC2 gl0).cam
          (camera_init envOk sC2 gl0).gl).gl.framebuffers := by
  norm_num [camera_init, camera_init_eye, camera_init_center, camera_init_up,
    camera_init_capture, capture_setup, camera_uninit, envOk, sC2, cam0, gl0]

/-- Claim C10: with capture not configured (`pipe_fd = 0`, so the stored
GL names are still 0), `camera_uninit` frees no CPU buffer and leaves the
camera untouched, yet still unconditionally binds the stored framebuffer
name 0, issues the texture detach, and issues the delete calls on the
never-created names. -/
theorem camera_uninit_unconditional_gl_calls (s : Camera) (gl : GLState)
    (h : s.pipe_fd = 0) (hf : s.framebuffer_id = 0) (ht : s.texture_id = 0) :
    (camera_uninit s gl).frees = 0 ∧
    (camera_uninit s gl).cam = s ∧
    (camera_uninit s gl).calls =
      [GLCall.bindFramebuffer 0, GLCall.framebufferTexture2D 0,
       GLCall.deleteRenderbuffers 0, GLCall.deleteTextures 0] ∧
    (camera_uninit s gl).gl.framebufferBinding = 0 := by
  simp [camera_uninit, h, hf, ht]

/-- Claim C10 witness: at the default camera (no capture, GL names 0). -/
theorem camera_uninit_unconditional_gl_calls_witness :
    cam0.pipe_fd = 0 ∧
    (camera_uninit cam0 gl0).frees = 0 ∧
    (camera_uninit cam0 gl0).calls =
      [GLCall.bindFramebuffer 0, GLCall.framebufferTexture2D 0,
       GLCall.deleteRenderbuffers 0, GLCall.deleteTextures 0] :=
  ⟨rfl,
   (camera_uninit_unconditional_gl_calls cam0 gl0 rfl rfl rfl).1,
   (camera_uninit_unconditional_gl_calls cam0 gl0 rfl rfl rfl).2.2.1⟩

lemma writesOf_append (a b : List DrawEvent) :
    writesOf (a ++ b) = writesOf a ++ writesOf b := by
  induction a with
  | nil => rfl
  | cons x r ih => cases x <;> simp [writesOf, ih]

/-- Claim C7: with capture enabled, each `camera_draw` call issues exactly
one write to `pipe_fd` requesting `pipe_width * pipe_height * 4` bytes,
after the child draw (the trace starts with the child draw and the single
write is in its tail); `n` draw calls produce exactly `n` such writes with
nothing else written in between; and the trace does not depend on the
result of the `write(2)` call (no retry, no inspection). -/
theorem camera_draw_single_write (s : Camera) (ms : Bool) (rb db : ℕ)
    (wr wr2 : ℤ) (n : ℕ) (h : s.pipe_fd ≠ 0) :
    writesOf (camera_draw s ms rb db wr) =
      [(s.pipe_fd, s.pipe_width * s.pipe_height * 4)] ∧
    (camera_draw s ms rb db wr).head? = some DrawEvent.drawChild ∧
    writesOf (List.replicate n (camera_draw s ms rb db wr)).flatten =
      List.replicate n (s.pipe_fd, s.pipe_width * s.pipe_height * 4) ∧
    camera_draw s ms rb db wr = camera_draw s ms rb db wr2 := by
  have h1 : writesOf (camera_draw s ms rb db wr) =
      [(s.pipe_fd, s.pipe_width * s.pipe_height * 4)] := by
    unfold camera_draw
    rw [if_pos h]
    cases ms <;> simp [writesOf, writesOf_append]
  refine ⟨h1, rfl, ?_, rfl⟩
  induction n with
  | zero => rfl
  | succ k ih =>
      rw [List.replicate_succ, List.flatten_cons, writesOf_append, h1, ih,
          List.replicate_succ]
      rfl

/-- Claim C7 witness: at the concrete 4x4 camera writing to descriptor 3,
one draw call writes exactly 64 bytes to descriptor 3, and two draw calls
give exactly two such writes. -/
theorem camera_draw_single_write_witness :
    sC7.pipe_fd ≠ 0 ∧
    writesOf (camera_draw sC7 false 0 0 0) = [(3, 64)] ∧
    writesOf (List.replicate 2 (camera_draw sC7 false 0 0 0)).flatten =
      List.replicate 2 (3, 64) := by
  have h := camera_draw_single_write sC7 false 0 0 0 0 2 (by norm_num [sC7, cam0])
  refine ⟨by norm_num [sC7, cam0], ?_, ?_⟩
  · rw [h.1]
    norm_num [sC7, cam0]
  · rw [h.2.2.1]
    norm_num [sC7, cam0]

end NodeCamera
